import Mathlib

/-!
# sanlock: result codes, quorum test, lease release and the Python binding

A shallow embedding of

* `src/src/sanlock_rv.h`      : the result codes (`SANLK_*`),
* `src/daemon/paxos_lease.h`  : `majority_disks`, `paxos_lease_release`
  (declarations only; bodies are modelled from the specification),
* `src/python/sanlockmod.c`   : the `sanlockmod` extension module.

C `int` values are embedded as `Int`; none of the embedded code does
arithmetic that could overflow.
-/

namespace Sanlock

/-! ## Result codes (`sanlock_rv.h`) -/

def SANLK_OK : Int := 1
/-- Unused in the sources. -/
def SANLK_NONE : Int := 0
def SANLK_ERROR : Int := -201
def SANLK_AIO_TIMEOUT : Int := -202

-- run_ballot
def SANLK_DBLOCK_READ : Int := -210
def SANLK_DBLOCK_WRITE : Int := -211
def SANLK_DBLOCK_LVER : Int := -212
def SANLK_DBLOCK_MBAL : Int := -213
def SANLK_DBLOCK_CHECKSUM : Int := -214

-- verify_leader, leader_read, leader_write (paxos or delta)
def SANLK_LEADER_READ : Int := -220
def SANLK_LEADER_WRITE : Int := -221
def SANLK_LEADER_DIFF : Int := -222
def SANLK_LEADER_MAGIC : Int := -223
def SANLK_LEADER_VERSION : Int := -224
def SANLK_LEADER_SECTORSIZE : Int := -225
def SANLK_LEADER_LOCKSPACE : Int := -226
def SANLK_LEADER_RESOURCE : Int := -227
def SANLK_LEADER_NUMHOSTS : Int := -228
def SANLK_LEADER_CHECKSUM : Int := -229

-- paxos_lease_acquire, paxos_lease_release
def SANLK_ACQUIRE_LVER : Int := -240
def SANLK_ACQUIRE_LOCKSPACE : Int := -241
def SANLK_ACQUIRE_IDDISK : Int := -242
def SANLK_ACQUIRE_IDLIVE : Int := -243
def SANLK_ACQUIRE_OWNED : Int := -244
def SANLK_ACQUIRE_OTHER : Int := -245

def SANLK_RELEASE_LVER : Int := -250
def SANLK_RELEASE_OWNER : Int := -251

-- delta_lease_renew, delta_lease_acquire
def SANLK_RENEW_OWNER : Int := -260
def SANLK_RENEW_DIFF : Int := -261
def SANLK_HOSTID_BUSY : Int := -262

/-- The `SANLK_DBLOCK_*` group of the header, in header order. -/
def dblock_codes : List Int :=
  [SANLK_DBLOCK_READ, SANLK_DBLOCK_WRITE, SANLK_DBLOCK_LVER, SANLK_DBLOCK_MBAL,
   SANLK_DBLOCK_CHECKSUM]

/-- The `SANLK_LEADER_*` group of the header, in header order. -/
def leader_codes : List Int :=
  [SANLK_LEADER_READ, SANLK_LEADER_WRITE, SANLK_LEADER_DIFF, SANLK_LEADER_MAGIC,
   SANLK_LEADER_VERSION, SANLK_LEADER_SECTORSIZE, SANLK_LEADER_LOCKSPACE,
   SANLK_LEADER_RESOURCE, SANLK_LEADER_NUMHOSTS, SANLK_LEADER_CHECKSUM]

/-- The `SANLK_ACQUIRE_*` group of the header, in header order. -/
def acquire_codes : List Int :=
  [SANLK_ACQUIRE_LVER, SANLK_ACQUIRE_LOCKSPACE, SANLK_ACQUIRE_IDDISK,
   SANLK_ACQUIRE_IDLIVE, SANLK_ACQUIRE_OWNED, SANLK_ACQUIRE_OTHER]

/-- The `SANLK_RELEASE_*` group of the header. -/
def release_codes : List Int := [SANLK_RELEASE_LVER, SANLK_RELEASE_OWNER]

/-- The group under the header comment `delta_lease_renew, delta_lease_acquire`. -/
def renew_codes : List Int := [SANLK_RENEW_OWNER, SANLK_RENEW_DIFF, SANLK_HOSTID_BUSY]

/-- Every failure code the header defines. -/
def failure_codes : List Int :=
  [SANLK_ERROR, SANLK_AIO_TIMEOUT] ++ dblock_codes ++ leader_codes ++ acquire_codes ++
    release_codes ++ renew_codes

/-- Every code the header defines. -/
def all_codes : List Int := [SANLK_OK, SANLK_NONE] ++ failure_codes

/-- The codes of the six field checks of leader verification: magic, version,
sector size, lockspace name, resource name, checksum. -/
def leader_field_codes : List Int :=
  [SANLK_LEADER_MAGIC, SANLK_LEADER_VERSION, SANLK_LEADER_SECTORSIZE,
   SANLK_LEADER_LOCKSPACE, SANLK_LEADER_RESOURCE, SANLK_LEADER_CHECKSUM]

/-! ## Tokens, the quorum test and lease release (`paxos_lease.h`)

The header only declares these functions; their bodies, and the declarations of
`struct token` and `struct leader_record`, belong to files that are not part of
the sources at hand. -/

/-- Modelled from the spec: `struct leader_record`, whose declaration is missing
from the sources. The fields are those of the LeaderRecord row of the on-disk
layout table. -/
structure leader_record where
  magic : Nat
  version : Nat
  sector_size : Nat
  lockspace_name : String
  resource_name : String
  num_hosts : Nat
  lver : Nat
  owner_id : Nat
  owner_generation : Nat
  timestamp : Nat
  checksum : Nat
deriving DecidableEq, Repr

/-- Modelled from the spec: `struct token`, whose declaration is missing from the
sources. A token is a lockspace name, a resource name and an ordered list of disk
replicas. -/
structure token (Disk : Type) where
  lockspace_name : String
  resource_name : String
  disks : List Disk

/-- Number of disk replicas of a token, as a C `int`. -/
def token.num_disks {Disk : Type} (t : token Disk) : Int := (t.disks.length : Int)

/-- Modelled from the spec: the body of `majority_disks(token, num)` is missing
from the sources. The quorum evaluator's contract asks for a strict majority,
`num > N/2`, of the token's `N` replicas; the result is a C truth value. The
division is C's integer division on `int`. -/
def majority_disks {Disk : Type} (t : token Disk) (num : Int) : Int :=
  if num > Int.tdiv t.num_disks 2 then 1 else 0

/-- Values read from the reachable replicas of a token, in replica order;
`read d = none` stands for an unreachable replica. -/
def reachable_values {Disk V : Type} (t : token Disk) (read : Disk → Option V) : List V :=
  t.disks.filterMap read

/-- Modelled from the spec: the quorum evaluator, whose code is missing from the
sources. It reads the record from every reachable replica and returns the value
held by a strict majority of the token's replicas. There is no quorum when fewer
than a majority of replicas are reachable (a leader read failure) or when no value
reaches a majority (a quorum disagreement). -/
def quorum_read {Disk V : Type} [DecidableEq V] (t : token Disk) (read : Disk → Option V) :
    Except Int V :=
  let seen := reachable_values t read
  if majority_disks t (seen.length : Int) = 0 then Except.error SANLK_LEADER_READ
  else
    match seen.find? (fun v => decide (majority_disks t (seen.count v : Int) ≠ 0)) with
    | some v => Except.ok v
    | none => Except.error SANLK_LEADER_DIFF

/-- Modelled from the spec: the first step of `paxos_lease_acquire`, whose body is
missing from the sources. The attempt starts by reading the current leader through
the quorum evaluator; without a quorum it fails with that failure and nothing else
happens. The ballot that follows (choice of the ballot number, propose, commit) is
the parameter `run_ballot`, applied to the leader read. -/
def paxos_lease_acquire {Disk : Type} (t : token Disk) (read : Disk → Option leader_record)
    (run_ballot : leader_record → Except Int leader_record) : Except Int leader_record :=
  match quorum_read t read with
  | Except.error rv => Except.error rv
  | Except.ok leader => run_ballot leader

/-- Modelled from the spec: `paxos_lease_release`, whose body is missing from the
sources. `disk` is the leader record currently on disk and `leader_last` the record
the caller last observed. If the lock version on disk has moved on the release
fails as "stale version"; if the disk shows another owner it fails as "not owner";
both leave the disk as it is. Otherwise the record `write disk` is written, where
`write` is what a successful release stores (the spec leaves it open). The result
is the return value with the on-disk record after the call. -/
def paxos_lease_release (write : leader_record → leader_record)
    (disk : leader_record) (leader_last : leader_record) : Int × leader_record :=
  if disk.lver ≠ leader_last.lver then (SANLK_RELEASE_LVER, disk)
  else if disk.owner_id ≠ leader_last.owner_id then (SANLK_RELEASE_OWNER, disk)
  else (SANLK_OK, write disk)

/-! ## The Python binding (`sanlockmod.c`)

The module keeps one global, `__sanlockmod_fd`. The Python error indicator and the
calls made into the sanlock client library are threaded through as explicit state;
what the library returns is an input of each operation. -/

/-- What the Python error indicator can hold in this module. -/
inductive PyErr where
  /-- The error `PyArg_ParseTuple` raises itself when it rejects the arguments. -/
  | parse_tuple_error
  /-- The module's own exception, `sanlockmod_exception`, set by `PyErr_SetString`. -/
  | sanlockmod_exception (msg : String)
deriving DecidableEq, Repr

/-- What a method hands back to the interpreter. -/
inductive PyRet where
  /-- `Py_RETURN_NONE`. -/
  | None
  /-- `return NULL`. -/
  | NULL
deriving DecidableEq, Repr

/-- The argument tuple as `PyArg_ParseTuple(args, "s", &p)` sees it. -/
inductive PyArgs where
  /-- Anything the format `"s"` rejects. -/
  | bad
  /-- One string object; `s` is the content of its internal buffer, to which `p`
  is made to point. -/
  | str (s : String)
deriving DecidableEq, Repr

/-- A call into the sanlock client library, with the arguments passed. -/
inductive LibCall (LS RES : Type) where
  | sanlock_register
  | sanlock_add_lockspace (ls : LS) (flags : Int)
  | sanlock_rem_lockspace (ls : LS) (flags : Int)
  | sanlock_acquire (sock pid flags res_count : Int) (res : RES) (opt_in : Int)
  | sanlock_release (sock pid flags res_count : Int) (res : RES)

/-- State of the extension module and of the interpreter around it. -/
structure World (LS RES : Type) where
  /-- The global `__sanlockmod_fd`. -/
  __sanlockmod_fd : Int
  /-- The Python error indicator. -/
  err : Option PyErr
  /-- The library calls made so far with the value each returned, oldest first. -/
  trace : List (LibCall LS RES × Int)

/-- State right after the module is loaded: `int __sanlockmod_fd = -1;`. -/
def World.init (LS RES : Type) : World LS RES :=
  { __sanlockmod_fd := -1, err := none, trace := [] }

/-- What a string converter of the client library does with the buffer it is
handed: its return value, the content of that buffer after the call, and what
its result pointer refers to after the call. -/
structure ConvOut (α : Type) where
  rv : Int
  buf : String
  out : α

/-- The two string converters of the client library, whose code is not part of the
sources. Each gets the buffer content and what the result pointer refers to. -/
structure Lib (LS RES : Type) where
  sanlock_str_to_lockspace : String → LS → ConvOut LS
  sanlock_str_to_res : String → RES → ConvOut RES

/-- Result of a parsing helper: its return value, what the result pointer refers
to, the caller's argument tuple after the call, and the state. -/
structure ParseOut (α LS RES : Type) where
  rv : Int
  out : α
  args : PyArgs
  w : World LS RES

/-- Result of a method: the returned object, the caller's argument tuple after the
call, and the state. -/
structure PyOut (LS RES : Type) where
  ret : PyRet
  args : PyArgs
  w : World LS RES

/-- `PyErr_SetString(sanlockmod_exception, msg)`. -/
def PyErr_SetString {LS RES : Type} (msg : String) (w : World LS RES) : World LS RES :=
  { w with err := some (PyErr.sanlockmod_exception msg) }

/-- `PyArg_ParseTuple(args, "s", &p)`: on success `p` points at the string's buffer;
on failure the interpreter's own error is set. -/
def PyArg_ParseTuple {LS RES : Type} (args : PyArgs) (w : World LS RES) :
    Option String × World LS RES :=
  match args with
  | PyArgs.bad => (none, { w with err := some PyErr.parse_tuple_error })
  | PyArgs.str s => (some s, w)

/-- Records a library call and its return value. -/
def World.call {LS RES : Type} (w : World LS RES) (c : LibCall LS RES) (rv : Int) :
    World LS RES :=
  { w with trace := w.trace ++ [(c, rv)] }

/-- `py_register`; `ret` is what `sanlock_register()` returns. -/
def py_register {LS RES : Type} (ret : Int) (w : World LS RES) : PyRet × World LS RES :=
  let w1 := { w.call LibCall.sanlock_register ret with __sanlockmod_fd := ret }
  if w1.__sanlockmod_fd < 0 then
    (PyRet.NULL, PyErr_SetString "SANLock registration failed" w1)
  else
    (PyRet.None, w1)

/-- `__parse_lockspace`; `strdup_ok` tells whether `strdup` returns a buffer. The
converter works on the copy `lockspace_arg`, which is freed on both paths. -/
def __parse_lockspace {LS RES : Type} (lib : Lib LS RES) (strdup_ok : Bool)
    (args : PyArgs) (ret_ls : LS) (w : World LS RES) : ParseOut LS LS RES :=
  match PyArg_ParseTuple args w with
  | (none, w1) => { rv := -1, out := ret_ls, args := args, w := w1 }
  | (some lockspace, w1) =>
    if strdup_ok = false then
      { rv := -1, out := ret_ls, args := PyArgs.str lockspace,
        w := PyErr_SetString "SANLock extension memory error" w1 }
    else
      let lockspace_arg := lockspace
      let c := lib.sanlock_str_to_lockspace lockspace_arg ret_ls
      if c.rv ≠ 0 then
        { rv := -1, out := c.out, args := PyArgs.str lockspace,
          w := PyErr_SetString "Invalid SANLock lockspace" w1 }
      else
        { rv := 0, out := c.out, args := PyArgs.str lockspace, w := w1 }

/-- `py_add_lockspace`; `ls` is the local structure and `rv` what
`sanlock_add_lockspace` returns. -/
def py_add_lockspace {LS RES : Type} (lib : Lib LS RES) (strdup_ok : Bool) (rv : Int)
    (args : PyArgs) (ls : LS) (w : World LS RES) : PyOut LS RES :=
  let p := __parse_lockspace lib strdup_ok args ls w
  if p.rv ≠ 0 then { ret := PyRet.NULL, args := p.args, w := p.w }
  else
    let w1 := p.w.call (LibCall.sanlock_add_lockspace p.out 0) rv
    if rv ≠ 0 then
      { ret := PyRet.NULL, args := p.args,
        w := PyErr_SetString "SANLock lockspace add failure" w1 }
    else { ret := PyRet.None, args := p.args, w := w1 }

/-- `py_rem_lockspace`; `ls` is the local structure and `rv` what
`sanlock_rem_lockspace` returns. -/
def py_rem_lockspace {LS RES : Type} (lib : Lib LS RES) (strdup_ok : Bool) (rv : Int)
    (args : PyArgs) (ls : LS) (w : World LS RES) : PyOut LS RES :=
  let p := __parse_lockspace lib strdup_ok args ls w
  if p.rv ≠ 0 then { ret := PyRet.NULL, args := p.args, w := p.w }
  else
    let w1 := p.w.call (LibCall.sanlock_rem_lockspace p.out 0) rv
    if rv ≠ 0 then
      { ret := PyRet.NULL, args := p.args,
        w := PyErr_SetString "SANLock lockspace remove failure" w1 }
    else { ret := PyRet.None, args := p.args, w := w1 }

/-- `__parse_resource`. The converter works on `resource`, the buffer of the
caller's string object. -/
def __parse_resource {LS RES : Type} (lib : Lib LS RES)
    (args : PyArgs) (ret_res : RES) (w : World LS RES) : ParseOut RES LS RES :=
  match PyArg_ParseTuple args w with
  | (none, w1) => { rv := -1, out := ret_res, args := args, w := w1 }
  | (some resource, w1) =>
    let c := lib.sanlock_str_to_res resource ret_res
    if c.rv ≠ 0 then
      { rv := -1, out := c.out, args := PyArgs.str c.buf,
        w := PyErr_SetString "Invalid SANLock resource" w1 }
    else
      { rv := 0, out := c.out, args := PyArgs.str c.buf, w := w1 }

/-- `py_acquire`; `res` is the local pointer and `rv` what `sanlock_acquire`
returns. -/
def py_acquire {LS RES : Type} (lib : Lib LS RES) (rv : Int)
    (args : PyArgs) (res : RES) (w : World LS RES) : PyOut LS RES :=
  let p := __parse_resource lib args res w
  if p.rv ≠ 0 then { ret := PyRet.NULL, args := p.args, w := p.w }
  else
    let w1 := p.w.call (LibCall.sanlock_acquire p.w.__sanlockmod_fd (-1) 0 1 p.out 0) rv
    if rv ≠ 0 then
      { ret := PyRet.NULL, args := p.args,
        w := PyErr_SetString "SANLock resource not acquired" w1 }
    else { ret := PyRet.None, args := p.args, w := w1 }

/-- `py_release`; `res` is the local pointer and `rv` what `sanlock_release`
returns. -/
def py_release {LS RES : Type} (lib : Lib LS RES) (rv : Int)
    (args : PyArgs) (res : RES) (w : World LS RES) : PyOut LS RES :=
  let p := __parse_resource lib args res w
  if p.rv ≠ 0 then { ret := PyRet.NULL, args := p.args, w := p.w }
  else
    let w1 := p.w.call (LibCall.sanlock_release p.w.__sanlockmod_fd (-1) 0 1 p.out) rv
    if rv ≠ 0 then
      { ret := PyRet.NULL, args := p.args,
        w := PyErr_SetString "SANLock resource not released" w1 }
    else { ret := PyRet.None, args := p.args, w := w1 }

/-- One call of a method of `sanlockmod_methods`, with what the environment
answers during it. -/
inductive Call (LS RES : Type) where
  | register (ret : Int)
  | add_lockspace (args : PyArgs) (ls : LS) (strdup_ok : Bool) (rv : Int)
  | rem_lockspace (args : PyArgs) (ls : LS) (strdup_ok : Bool) (rv : Int)
  | acquire (args : PyArgs) (res : RES) (rv : Int)
  | release (args : PyArgs) (res : RES) (rv : Int)

/-- Dispatch of one method call. -/
def step {LS RES : Type} (lib : Lib LS RES) (w : World LS RES) :
    Call LS RES → PyRet × World LS RES
  | Call.register ret => py_register ret w
  | Call.add_lockspace args ls strdup_ok rv =>
    let o := py_add_lockspace lib strdup_ok rv args ls w
    (o.ret, o.w)
  | Call.rem_lockspace args ls strdup_ok rv =>
    let o := py_rem_lockspace lib strdup_ok rv args ls w
    (o.ret, o.w)
  | Call.acquire args res rv =>
    let o := py_acquire lib rv args res w
    (o.ret, o.w)
  | Call.release args res rv =>
    let o := py_release lib rv args res w
    (o.ret, o.w)

/-- The state after a sequence of method calls. -/
def run {LS RES : Type} (lib : Lib LS RES) (w : World LS RES) (calls : List (Call LS RES)) :
    World LS RES :=
  calls.foldl (fun w c => (step lib w c).2) w

/-! ## The session descriptor along a run -/

/-- The value `sanlock_register` returned in the most recent `register` call of a
sequence of method calls, or `cur` when the sequence has none. -/
def last_register {LS RES : Type} : Int → List (Call LS RES) → Int
  | cur, [] => cur
  | _, Call.register ret :: cs => last_register ret cs
  | cur, Call.add_lockspace _ _ _ _ :: cs => last_register cur cs
  | cur, Call.rem_lockspace _ _ _ _ :: cs => last_register cur cs
  | cur, Call.acquire _ _ _ :: cs => last_register cur cs
  | cur, Call.release _ _ _ :: cs => last_register cur cs

/-- The value of the last `sanlock_register` call recorded in a trace, or `cur`
when the trace has none. -/
def registered_fd {LS RES : Type} : Int → List (LibCall LS RES × Int) → Int
  | cur, [] => cur
  | _, (LibCall.sanlock_register, ret) :: es => registered_fd ret es
  | cur, (LibCall.sanlock_add_lockspace _ _, _) :: es => registered_fd cur es
  | cur, (LibCall.sanlock_rem_lockspace _ _, _) :: es => registered_fd cur es
  | cur, (LibCall.sanlock_acquire _ _ _ _ _ _, _) :: es => registered_fd cur es
  | cur, (LibCall.sanlock_release _ _ _ _ _, _) :: es => registered_fd cur es

/-- Every `sanlock_acquire` and `sanlock_release` call of the trace passes, as its
first argument, the value returned by the latest `sanlock_register` call before it,
or `cur` when there is none before it. -/
def fds_follow_register {LS RES : Type} : Int → List (LibCall LS RES × Int) → Prop
  | _, [] => True
  | _, (LibCall.sanlock_register, ret) :: es => fds_follow_register ret es
  | cur, (LibCall.sanlock_add_lockspace _ _, _) :: es => fds_follow_register cur es
  | cur, (LibCall.sanlock_rem_lockspace _ _, _) :: es => fds_follow_register cur es
  | cur, (LibCall.sanlock_acquire sock _ _ _ _ _, _) :: es =>
    sock = cur ∧ fds_follow_register cur es
  | cur, (LibCall.sanlock_release sock _ _ _ _, _) :: es =>
    sock = cur ∧ fds_follow_register cur es

/-- What one more recorded call asks of the descriptor in force. -/
def event_follows {LS RES : Type} (fd : Int) : LibCall LS RES × Int → Prop
  | (LibCall.sanlock_acquire sock _ _ _ _ _, _) => sock = fd
  | (LibCall.sanlock_release sock _ _ _ _, _) => sock = fd
  | _ => True

/-- The trace is in order and the global holds the descriptor of the last recorded
registration. -/
def trace_inv {LS RES : Type} (cur : Int) (w : World LS RES) : Prop :=
  fds_follow_register cur w.trace ∧ registered_fd cur w.trace = w.__sanlockmod_fd

/-! ## The contract of the binding operations -/

/-- What holds of one of `add_lockspace`, `rem_lockspace`, `acquire`, `release`:
`parse_rv` is what the parsing helper returned, `rv` what the library call returns,
`call` the library call the operation makes, `args` and `w` the arguments and state
before and `o` the outcome. The operation returns `None` exactly when the helper
returned 0 and `rv` is 0, the error indicator is then untouched; otherwise it
returns `NULL` with an error set: the one of `PyArg_ParseTuple` when the argument
tuple is rejected, the module's exception in every other case. The library is called
once when the helper returned 0 and not at all otherwise. -/
def binding_contract {LS RES : Type} (parse_rv rv : Int) (call : LibCall LS RES)
    (args : PyArgs) (w : World LS RES) (o : PyOut LS RES) : Prop :=
  (o.ret = PyRet.None ↔ parse_rv = 0 ∧ rv = 0) ∧
  (o.ret = PyRet.None → o.w.err = w.err) ∧
  (o.ret ≠ PyRet.None →
    o.ret = PyRet.NULL ∧
    (args = PyArgs.bad → o.w.err = some PyErr.parse_tuple_error) ∧
    (args ≠ PyArgs.bad → ∃ msg, o.w.err = some (PyErr.sanlockmod_exception msg))) ∧
  (parse_rv ≠ 0 → o.w.trace = w.trace) ∧
  (parse_rv = 0 → o.w.trace = w.trace ++ [(call, rv)])

/-! ## The error taxonomy of the specification -/

/-- Conditions the taxonomy lists for the ballot-block kind. -/
inductive BallotCondition where
  | read_failure | write_failure | stale_lver | losing_mbal_race | checksum_mismatch
deriving DecidableEq, Fintype, Repr

/-- Conditions the taxonomy lists for the leader-record kind. -/
inductive LeaderCondition where
  | read_failure | write_failure | quorum_disagreement | magic_mismatch
  | version_mismatch | sector_size_mismatch | lockspace_name_mismatch
  | resource_name_mismatch | checksum_mismatch
deriving DecidableEq, Fintype, Repr

/-- Conditions the taxonomy lists for the acquire kind. -/
inductive AcquireCondition where
  | lver_mismatch | lockspace_not_active | host_id_not_live | owned_by_self
  | owned_by_other_live_host
deriving DecidableEq, Fintype, Repr

/-- Conditions the taxonomy lists for the release kind. -/
inductive ReleaseCondition where
  | stale_lver | not_owner
deriving DecidableEq, Fintype, Repr

/-- Conditions the taxonomy lists for the renew kind. -/
inductive RenewCondition where
  | unexpected_value | not_owner | host_id_busy
deriving DecidableEq, Fintype, Repr

/-- The assignment `f` of codes to conditions matches a group of header codes one
to one: distinct conditions get distinct codes, and the codes reached are exactly
those of the group. -/
def corresponds {Cond : Type} (codes : List Int) (f : Cond → Int) : Prop :=
  Function.Injective f ∧ ∀ x, x ∈ codes ↔ ∃ c, f c = x

/-- A group of header codes and a kind of the taxonomy are in one-to-one
correspondence: some assignment of codes to the kind's conditions matches the group
one to one. -/
def one_to_one (codes : List Int) (Cond : Type) : Prop :=
  ∃ f : Cond → Int, corresponds codes f

/-- The header code of each ballot-block condition, matched by name. -/
def dblock_code : BallotCondition → Int
  | BallotCondition.read_failure => SANLK_DBLOCK_READ
  | BallotCondition.write_failure => SANLK_DBLOCK_WRITE
  | BallotCondition.stale_lver => SANLK_DBLOCK_LVER
  | BallotCondition.losing_mbal_race => SANLK_DBLOCK_MBAL
  | BallotCondition.checksum_mismatch => SANLK_DBLOCK_CHECKSUM

/-- The header code of each leader-record condition, matched by name. -/
def leader_code : LeaderCondition → Int
  | LeaderCondition.read_failure => SANLK_LEADER_READ
  | LeaderCondition.write_failure => SANLK_LEADER_WRITE
  | LeaderCondition.quorum_disagreement => SANLK_LEADER_DIFF
  | LeaderCondition.magic_mismatch => SANLK_LEADER_MAGIC
  | LeaderCondition.version_mismatch => SANLK_LEADER_VERSION
  | LeaderCondition.sector_size_mismatch => SANLK_LEADER_SECTORSIZE
  | LeaderCondition.lockspace_name_mismatch => SANLK_LEADER_LOCKSPACE
  | LeaderCondition.resource_name_mismatch => SANLK_LEADER_RESOURCE
  | LeaderCondition.checksum_mismatch => SANLK_LEADER_CHECKSUM

/-- The header code of each acquire condition, matched by name. -/
def acquire_code : AcquireCondition → Int
  | AcquireCondition.lver_mismatch => SANLK_ACQUIRE_LVER
  | AcquireCondition.lockspace_not_active => SANLK_ACQUIRE_LOCKSPACE
  | AcquireCondition.host_id_not_live => SANLK_ACQUIRE_IDLIVE
  | AcquireCondition.owned_by_self => SANLK_ACQUIRE_OWNED
  | AcquireCondition.owned_by_other_live_host => SANLK_ACQUIRE_OTHER

/-- The header code of each release condition, matched by name. -/
def release_code : ReleaseCondition → Int
  | ReleaseCondition.stale_lver => SANLK_RELEASE_LVER
  | ReleaseCondition.not_owner => SANLK_RELEASE_OWNER

/-- The header code of each renew condition, matched by name. -/
def renew_code : RenewCondition → Int
  | RenewCondition.unexpected_value => SANLK_RENEW_DIFF
  | RenewCondition.not_owner => SANLK_RENEW_OWNER
  | RenewCondition.host_id_busy => SANLK_HOSTID_BUSY

/-! ## Concrete inputs -/

/-- A token on four disks, numbered 0 to 3. -/
def token4 : token Nat :=
  { lockspace_name := "ls", resource_name := "res", disks := [0, 1, 2, 3] }

/-- A leader record at lock version `lver` owned by host `owner_id`. -/
def leader_at (lver owner_id : Nat) : leader_record :=
  { magic := 0, version := 0, sector_size := 512, lockspace_name := "ls",
    resource_name := "res", num_hosts := 4, lver := lver, owner_id := owner_id,
    owner_generation := 1, timestamp := 1, checksum := 0 }

/-- Only disks 0 and 1 answer, both with the same record: half of `token4`. -/
def read_half (d : Nat) : Option leader_record :=
  if d < 2 then some (leader_at 1 1) else none

/-- A release that clears the timestamp. -/
def clear_timestamp (l : leader_record) : leader_record := { l with timestamp := 0 }

/-- Converters that put a terminator at the start of the buffer they are handed and
report success; the lockspace and resource structures carry no data. -/
def truncating_lib : Lib Unit Unit :=
  { sanlock_str_to_lockspace := fun _ ls => { rv := 0, buf := "", out := ls },
    sanlock_str_to_res := fun _ res => { rv := 0, buf := "", out := res } }

/-- Converters that leave the buffer they are handed as it is and report success. -/
def copying_lib : Lib Unit Unit :=
  { sanlock_str_to_lockspace := fun s ls => { rv := 0, buf := s, out := ls },
    sanlock_str_to_res := fun s res => { rv := 0, buf := s, out := res } }

/-! ## Theorems on the result codes -/

/-- C3: the six verification-failure codes of a leader record (magic, version,
sector size, lockspace name, resource name, checksum) are pairwise distinct, and
none of them equals the leader read, write or quorum-disagreement code or the
generic `SANLK_ERROR`. -/
theorem leader_verify_codes_distinct :
    leader_field_codes.Nodup ∧
    (∀ c ∈ leader_field_codes,
      c ≠ SANLK_LEADER_READ ∧ c ≠ SANLK_LEADER_WRITE ∧ c ≠ SANLK_LEADER_DIFF ∧
      c ≠ SANLK_ERROR) := by
  decide

/-- C5: `SANLK_AIO_TIMEOUT` differs from the generic `SANLK_ERROR`, from every
ballot-block code and from every leader-record code. -/
theorem aio_timeout_distinct :
    SANLK_AIO_TIMEOUT ≠ SANLK_ERROR ∧
    SANLK_AIO_TIMEOUT ∉ dblock_codes ∧
    SANLK_AIO_TIMEOUT ∉ leader_codes := by
  decide

/-- C10: `SANLK_OK` is 1, `SANLK_NONE` is 0, every failure code of the header is
strictly negative, all defined codes are pairwise distinct, and among the defined
codes the test `rv < 0` holds exactly for the failure codes. -/
theorem result_codes_sign_and_distinct :
    SANLK_OK = 1 ∧ 0 < SANLK_OK ∧ SANLK_NONE = 0 ∧
    (∀ c ∈ failure_codes, c < 0) ∧
    all_codes.Nodup ∧
    (∀ c ∈ all_codes, c < 0 ↔ c ∈ failure_codes) := by
  decide

/-! ## The quorum test -/

theorem majority_disks_ne_zero_iff {Disk : Type} (t : token Disk) (num : Int) :
    majority_disks t num ≠ 0 ↔ 2 * num > t.num_disks := by
  have hN : (0 : Int) ≤ t.num_disks := by
    unfold token.num_disks
    exact Int.ofNat_nonneg _
  have hdiv : Int.tdiv t.num_disks 2 = t.num_disks / 2 :=
    Int.tdiv_eq_ediv hN (by decide)
  unfold majority_disks
  rw [hdiv]
  by_cases h : num > t.num_disks / 2
  · rw [if_pos h]
    constructor
    · intro _
      omega
    · intro _
      decide
  · rw [if_neg h]
    constructor
    · intro h0
      exact absurd rfl h0
    · intro h2
      omega

theorem quorum_read_unreachable {Disk V : Type} [DecidableEq V] (t : token Disk)
    (read : Disk → Option V)
    (h : ¬ 2 * ((reachable_values t read).length : Int) > t.num_disks) :
    quorum_read t read = Except.error SANLK_LEADER_READ := by
  have h0 : majority_disks t ((reachable_values t read).length : Int) = 0 := by
    by_contra hne
    exact h ((majority_disks_ne_zero_iff t _).mp hne)
  unfold quorum_read
  simp only [h0, if_true]

/-- C2: for a token with `N >= 1` replicas and `0 <= num <= N`, `majority_disks`
reports a majority (non-zero) exactly when `2 * num > N`; exactly half of the disks
is not a majority; and when the reachable replicas are fewer than a majority the
quorum read fails and so does the acquisition, whatever the ballot would do. -/
theorem majority_disks_strict_majority {Disk : Type} (t : token Disk) (num : Int)
    (_hN : 1 ≤ t.num_disks) (_h0 : 0 ≤ num) (_hle : num ≤ t.num_disks) :
    (majority_disks t num ≠ 0 ↔ 2 * num > t.num_disks) ∧
    (2 * num = t.num_disks → majority_disks t num = 0) ∧
    (∀ (read : Disk → Option leader_record)
        (run_ballot : leader_record → Except Int leader_record),
      ¬ 2 * ((reachable_values t read).length : Int) > t.num_disks →
        quorum_read t read = Except.error SANLK_LEADER_READ ∧
        paxos_lease_acquire t read run_ballot = Except.error SANLK_LEADER_READ ∧
        SANLK_LEADER_READ < 0) := by
  refine ⟨majority_disks_ne_zero_iff t num, ?_, ?_⟩
  · intro hhalf
    by_contra hne
    have := (majority_disks_ne_zero_iff t num).mp hne
    omega
  · intro read run_ballot hfew
    have hq := quorum_read_unreachable t read hfew
    refine ⟨hq, ?_, by decide⟩
    unfold paxos_lease_acquire
    rw [hq]

/-- Witness for C2: `token4` has four disks; two of them are not a majority, three
are, and with only two disks reachable the acquisition fails. -/
theorem majority_disks_strict_majority_witness :
    majority_disks token4 2 = 0 ∧ majority_disks token4 3 ≠ 0 ∧
    paxos_lease_acquire token4 read_half Except.ok = Except.error SANLK_LEADER_READ :=
  ⟨(majority_disks_strict_majority token4 2 (by decide) (by decide) (by decide)).2.1
      (by decide),
   (majority_disks_strict_majority token4 3 (by decide) (by decide) (by decide)).1.mpr
      (by decide),
   ((majority_disks_strict_majority token4 2 (by decide) (by decide) (by decide)).2.2
      read_half Except.ok (by decide)).2.1⟩

/-! ## Lease release -/

/-- C4: when the lock version on disk differs from the one of `leader_last`,
`paxos_lease_release` returns `SANLK_RELEASE_LVER`; when the lock versions agree and
the owners differ it returns `SANLK_RELEASE_OWNER`; the two codes differ; and in
both cases the record on disk after the call is the record before it. -/
theorem paxos_lease_release_refused (write : leader_record → leader_record)
    (disk leader_last : leader_record) :
    (disk.lver ≠ leader_last.lver →
      paxos_lease_release write disk leader_last = (SANLK_RELEASE_LVER, disk)) ∧
    (disk.lver = leader_last.lver → disk.owner_id ≠ leader_last.owner_id →
      paxos_lease_release write disk leader_last = (SANLK_RELEASE_OWNER, disk)) ∧
    SANLK_RELEASE_LVER ≠ SANLK_RELEASE_OWNER := by
  refine ⟨?_, ?_, by decide⟩
  · intro h
    unfold paxos_lease_release
    rw [if_pos h]
  · intro h1 h2
    unfold paxos_lease_release
    rw [if_neg (not_not.mpr h1), if_pos h2]

/-- Witness for C4: host 1 presents lock version 1 after the disk moved to version
2 under host 2, and host 1 presents version 2 while the disk shows host 2. -/
theorem paxos_lease_release_refused_witness :
    paxos_lease_release clear_timestamp (leader_at 2 2) (leader_at 1 1) =
      (SANLK_RELEASE_LVER, leader_at 2 2) ∧
    paxos_lease_release clear_timestamp (leader_at 2 2) (leader_at 2 1) =
      (SANLK_RELEASE_OWNER, leader_at 2 2) :=
  ⟨(paxos_lease_release_refused clear_timestamp (leader_at 2 2) (leader_at 1 1)).1
      (by decide),
   (paxos_lease_release_refused clear_timestamp (leader_at 2 2) (leader_at 2 1)).2.1
      (by decide) (by decide)⟩

/-! ## Header groups against the taxonomy -/

theorem one_to_one_card {codes : List Int} {Cond : Type} [Fintype Cond]
    (h : one_to_one codes Cond) : codes.toFinset.card = Fintype.card Cond := by
  classical
  obtain ⟨f, hinj, hmem⟩ := h
  have himg : Finset.univ.image f = codes.toFinset := by
    ext x
    rw [List.mem_toFinset, hmem x]
    simp
  rw [← himg, Finset.card_image_of_injective _ hinj, Finset.card_univ]

/-- C6, as stated, fails: the leader-record group of the header is not in
one-to-one correspondence with the nine leader-record conditions of the taxonomy,
nor the acquire group with the five acquire conditions. -/
theorem header_groups_not_one_to_one :
    ¬ one_to_one leader_codes LeaderCondition ∧
    ¬ one_to_one acquire_codes AcquireCondition := by
  constructor
  · intro h
    have hc := one_to_one_card h
    have h10 : leader_codes.toFinset.card = 10 := by decide
    have h9 : Fintype.card LeaderCondition = 9 := by decide
    omega
  · intro h
    have hc := one_to_one_card h
    have h6 : acquire_codes.toFinset.card = 6 := by decide
    have h5 : Fintype.card AcquireCondition = 5 := by decide
    omega

/-- C6, amended: the ballot-block, release and renew groups (5, 2 and 3 codes)
correspond one to one to the conditions listed for their kinds, matched by name; the
leader-record group has 10 codes and the acquire group 6, each condition listed for
these kinds has a code of its own in its group, and the codes left without a listed
condition are `SANLK_LEADER_NUMHOSTS` and `SANLK_ACQUIRE_IDDISK`. -/
theorem header_groups_against_taxonomy :
    (dblock_codes.length = 5 ∧ leader_codes.length = 10 ∧ acquire_codes.length = 6 ∧
      release_codes.length = 2 ∧ renew_codes.length = 3) ∧
    corresponds dblock_codes dblock_code ∧
    corresponds release_codes release_code ∧
    corresponds renew_codes renew_code ∧
    (Function.Injective leader_code ∧
      ∀ x, x ∈ leader_codes ↔ x = SANLK_LEADER_NUMHOSTS ∨ ∃ c, leader_code c = x) ∧
    (∀ c, leader_code c ≠ SANLK_LEADER_NUMHOSTS) ∧
    (Function.Injective acquire_code ∧
      ∀ x, x ∈ acquire_codes ↔ x = SANLK_ACQUIRE_IDDISK ∨ ∃ c, acquire_code c = x) ∧
    (∀ c, acquire_code c ≠ SANLK_ACQUIRE_IDDISK) := by
  refine ⟨by decide, ⟨by decide, ?_⟩, ⟨by decide, ?_⟩, ⟨by decide, ?_⟩,
    ⟨by decide, ?_⟩, by decide, ⟨by decide, ?_⟩, by decide⟩
  · intro x
    constructor
    · intro hx
      simp only [dblock_codes, List.mem_cons, List.mem_singleton, List.not_mem_nil,
        or_false] at hx
      rcases hx with h | h | h | h | h
      · exact ⟨BallotCondition.read_failure, h.symm⟩
      · exact ⟨BallotCondition.write_failure, h.symm⟩
      · exact ⟨BallotCondition.stale_lver, h.symm⟩
      · exact ⟨BallotCondition.losing_mbal_race, h.symm⟩
      · exact ⟨BallotCondition.checksum_mismatch, h.symm⟩
    · rintro ⟨c, rfl⟩
      cases c <;> decide
  · intro x
    constructor
    · intro hx
      simp only [release_codes, List.mem_cons, List.mem_singleton, List.not_mem_nil,
        or_false] at hx
      rcases hx with h | h
      · exact ⟨ReleaseCondition.stale_lver, h.symm⟩
      · exact ⟨ReleaseCondition.not_owner, h.symm⟩
    · rintro ⟨c, rfl⟩
      cases c <;> decide
  · intro x
    constructor
    · intro hx
      simp only [renew_codes, List.mem_cons, List.mem_singleton, List.not_mem_nil,
        or_false] at hx
      rcases hx with h | h | h
      · exact ⟨RenewCondition.not_owner, h.symm⟩
      · exact ⟨RenewCondition.unexpected_value, h.symm⟩
      · exact ⟨RenewCondition.host_id_busy, h.symm⟩
    · rintro ⟨c, rfl⟩
      cases c <;> decide
  · intro x
    constructor
    · intro hx
      simp only [leader_codes, List.mem_cons, List.mem_singleton, List.not_mem_nil,
        or_false] at hx
      rcases hx with h | h | h | h | h | h | h | h | h | h
      · exact Or.inr ⟨LeaderCondition.read_failure, h.symm⟩
      · exact Or.inr ⟨LeaderCondition.write_failure, h.symm⟩
      · exact Or.inr ⟨LeaderCondition.quorum_disagreement, h.symm⟩
      · exact Or.inr ⟨LeaderCondition.magic_mismatch, h.symm⟩
      · exact Or.inr ⟨LeaderCondition.version_mismatch, h.symm⟩
      · exact Or.inr ⟨LeaderCondition.sector_size_mismatch, h.symm⟩
      · exact Or.inr ⟨LeaderCondition.lockspace_name_mismatch, h.symm⟩
      · exact Or.inr ⟨LeaderCondition.resource_name_mismatch, h.symm⟩
      · exact Or.inl h
      · exact Or.inr ⟨LeaderCondition.checksum_mismatch, h.symm⟩
    · rintro (rfl | ⟨c, rfl⟩)
      · decide
      · cases c <;> decide
  · intro x
    constructor
    · intro hx
      simp only [acquire_codes, List.mem_cons, List.mem_singleton, List.not_mem_nil,
        or_false] at hx
      rcases hx with h | h | h | h | h | h
      · exact Or.inr ⟨AcquireCondition.lver_mismatch, h.symm⟩
      · exact Or.inr ⟨AcquireCondition.lockspace_not_active, h.symm⟩
      · exact Or.inl h
      · exact Or.inr ⟨AcquireCondition.host_id_not_live, h.symm⟩
      · exact Or.inr ⟨AcquireCondition.owned_by_self, h.symm⟩
      · exact Or.inr ⟨AcquireCondition.owned_by_other_live_host, h.symm⟩
    · rintro (rfl | ⟨c, rfl⟩)
      · decide
      · cases c <;> decide

/-! ## The binding operations -/

/-- C7, as stated, fails: when `PyArg_ParseTuple` rejects the argument tuple,
`add_lockspace` returns `NULL` and the error that is set is not the module's
exception. -/
theorem py_add_lockspace_rejected_tuple :
    (py_add_lockspace truncating_lib true 0 PyArgs.bad () (World.init Unit Unit)).ret
      ≠ PyRet.None ∧
    ¬ ∃ msg,
      (py_add_lockspace truncating_lib true 0 PyArgs.bad () (World.init Unit Unit)).w.err
        = some (PyErr.sanlockmod_exception msg) := by
  constructor
  · decide
  · rintro ⟨msg, h⟩
    simp [py_add_lockspace, __parse_lockspace, PyArg_ParseTuple] at h

/-- C7, amended: each of `add_lockspace`, `rem_lockspace`, `acquire`, `release`
returns `None` exactly when its parsing helper returned 0 and the library call
returned 0; in every other case it returns `NULL` with an error set, which is the
module's exception unless `PyArg_ParseTuple` rejected the argument tuple, where it
is the error `PyArg_ParseTuple` raised; the library is not called when the helper
fails and is called once otherwise. The helpers return 0 exactly when the tuple
holds one string, `strdup` succeeds (lockspace only) and the converter returns 0. -/
theorem binding_operations_contract {LS RES : Type} (lib : Lib LS RES) (strdup_ok : Bool)
    (rv : Int) (args : PyArgs) (ls : LS) (res : RES) (w : World LS RES) :
    binding_contract (__parse_lockspace lib strdup_ok args ls w).rv rv
      (LibCall.sanlock_add_lockspace (__parse_lockspace lib strdup_ok args ls w).out 0)
      args w (py_add_lockspace lib strdup_ok rv args ls w) ∧
    binding_contract (__parse_lockspace lib strdup_ok args ls w).rv rv
      (LibCall.sanlock_rem_lockspace (__parse_lockspace lib strdup_ok args ls w).out 0)
      args w (py_rem_lockspace lib strdup_ok rv args ls w) ∧
    binding_contract (__parse_resource lib args res w).rv rv
      (LibCall.sanlock_acquire w.__sanlockmod_fd (-1) 0 1
        (__parse_resource lib args res w).out 0)
      args w (py_acquire lib rv args res w) ∧
    binding_contract (__parse_resource lib args res w).rv rv
      (LibCall.sanlock_release w.__sanlockmod_fd (-1) 0 1
        (__parse_resource lib args res w).out)
      args w (py_release lib rv args res w) ∧
    ((__parse_lockspace lib strdup_ok args ls w).rv = 0 ↔
      ∃ s, args = PyArgs.str s ∧ strdup_ok = true ∧
        (lib.sanlock_str_to_lockspace s ls).rv = 0) ∧
    ((__parse_resource lib args res w).rv = 0 ↔
      ∃ s, args = PyArgs.str s ∧ (lib.sanlock_str_to_res s res).rv = 0) := by
  refine ⟨?_, ?_, ?_, ?_, ?_, ?_⟩
  · unfold binding_contract py_add_lockspace __parse_lockspace PyArg_ParseTuple
      PyErr_SetString World.call
    cases args with
    | bad => simp
    | str s =>
      cases strdup_ok <;> by_cases hc : (lib.sanlock_str_to_lockspace s ls).rv = 0 <;>
        by_cases hr : rv = 0 <;> simp [hc, hr]
  · unfold binding_contract py_rem_lockspace __parse_lockspace PyArg_ParseTuple
      PyErr_SetString World.call
    cases args with
    | bad => simp
    | str s =>
      cases strdup_ok <;> by_cases hc : (lib.sanlock_str_to_lockspace s ls).rv = 0 <;>
        by_cases hr : rv = 0 <;> simp [hc, hr]
  · unfold binding_contract py_acquire __parse_resource PyArg_ParseTuple
      PyErr_SetString World.call
    cases args with
    | bad => simp
    | str s =>
      by_cases hc : (lib.sanlock_str_to_res s res).rv = 0 <;>
        by_cases hr : rv = 0 <;> simp [hc, hr]
  · unfold binding_contract py_release __parse_resource PyArg_ParseTuple
      PyErr_SetString World.call
    cases args with
    | bad => simp
    | str s =>
      by_cases hc : (lib.sanlock_str_to_res s res).rv = 0 <;>
        by_cases hr : rv = 0 <;> simp [hc, hr]
  · unfold __parse_lockspace PyArg_ParseTuple
    cases args with
    | bad => simp
    | str s =>
      cases strdup_ok <;> by_cases hc : (lib.sanlock_str_to_lockspace s ls).rv = 0 <;>
        simp [hc]
  · unfold __parse_resource PyArg_ParseTuple
    cases args with
    | bad => simp
    | str s =>
      by_cases hc : (lib.sanlock_str_to_res s res).rv = 0 <;> simp [hc]

/-- Witness for C7: with a well-formed lockspace string `add_lockspace` returns
`None` when the library returns 0, and returns `NULL` with the module's exception
set when the library returns -1 or 1. -/
theorem binding_operations_contract_witness :
    (py_add_lockspace truncating_lib true 0 (PyArgs.str "ls:1:/dev/sdb:0") ()
      (World.init Unit Unit)).ret = PyRet.None ∧
    ((py_add_lockspace truncating_lib true (-1) (PyArgs.str "ls:1:/dev/sdb:0") ()
        (World.init Unit Unit)).ret = PyRet.NULL ∧
      ∃ msg, (py_add_lockspace truncating_lib true (-1) (PyArgs.str "ls:1:/dev/sdb:0") ()
        (World.init Unit Unit)).w.err = some (PyErr.sanlockmod_exception msg)) ∧
    (py_add_lockspace truncating_lib true 1 (PyArgs.str "ls:1:/dev/sdb:0") ()
      (World.init Unit Unit)).ret = PyRet.NULL :=
  ⟨(binding_operations_contract truncating_lib true 0 (PyArgs.str "ls:1:/dev/sdb:0") () ()
      (World.init Unit Unit)).1.1.mpr (by decide),
   ⟨((binding_operations_contract truncating_lib true (-1) (PyArgs.str "ls:1:/dev/sdb:0")
      () () (World.init Unit Unit)).1.2.2.1 (by decide)).1,
    ((binding_operations_contract truncating_lib true (-1) (PyArgs.str "ls:1:/dev/sdb:0")
      () () (World.init Unit Unit)).1.2.2.1 (by decide)).2.2 (by decide)⟩,
   ((binding_operations_contract truncating_lib true 1 (PyArgs.str "ls:1:/dev/sdb:0")
      () () (World.init Unit Unit)).1.2.2.1 (by decide)).1⟩

/-! ## The parsing helpers and the caller's string -/

/-- C8, as stated, fails: `__parse_resource` runs the converter on the caller's own
buffer, so a converter that rewrites its argument changes the caller's string. -/
theorem parse_resource_rewrites_caller_string :
    (__parse_resource truncating_lib (PyArgs.str "ls:res:/dev/sdb:0") ()
      (World.init Unit Unit)).args ≠ PyArgs.str "ls:res:/dev/sdb:0" := by
  decide

/-- C8, amended: `__parse_lockspace` leaves the caller's arguments as they were,
whatever the converter does and whether parsing succeeds or fails;
`__parse_resource` leaves in the caller's string whatever content
`sanlock_str_to_res` left in the buffer, so the string is unchanged when that
converter does not rewrite its argument. -/
theorem parse_helpers_caller_string {LS RES : Type} (lib : Lib LS RES) (strdup_ok : Bool)
    (args : PyArgs) (ls : LS) (res : RES) (w : World LS RES) :
    (__parse_lockspace lib strdup_ok args ls w).args = args ∧
    (__parse_resource lib args res w).args =
      (match args with
       | PyArgs.bad => PyArgs.bad
       | PyArgs.str s => PyArgs.str (lib.sanlock_str_to_res s res).buf) ∧
    ((∀ s, (lib.sanlock_str_to_res s res).buf = s) →
      (__parse_resource lib args res w).args = args) := by
  refine ⟨?_, ?_, ?_⟩
  · unfold __parse_lockspace PyArg_ParseTuple
    cases args with
    | bad => rfl
    | str s =>
      cases strdup_ok <;> by_cases hc : (lib.sanlock_str_to_lockspace s ls).rv = 0 <;>
        simp [hc]
  · unfold __parse_resource PyArg_ParseTuple
    cases args with
    | bad => rfl
    | str s =>
      by_cases hc : (lib.sanlock_str_to_res s res).rv = 0 <;> simp [hc]
  · intro hkeep
    unfold __parse_resource PyArg_ParseTuple
    cases args with
    | bad => rfl
    | str s =>
      by_cases hc : (lib.sanlock_str_to_res s res).rv = 0 <;> simp [hc, hkeep s]

/-- Witness for C8: with converters that do not rewrite their argument the resource
string is the same after `__parse_resource`, and with truncating converters the
lockspace string is the same after `__parse_lockspace`. -/
theorem parse_helpers_caller_string_witness :
    (__parse_resource copying_lib (PyArgs.str "ls:res:/dev/sdb:0") ()
      (World.init Unit Unit)).args = PyArgs.str "ls:res:/dev/sdb:0" ∧
    (__parse_lockspace truncating_lib true (PyArgs.str "ls:1:/dev/sdb:0") ()
      (World.init Unit Unit)).args = PyArgs.str "ls:1:/dev/sdb:0" :=
  ⟨(parse_helpers_caller_string copying_lib true (PyArgs.str "ls:res:/dev/sdb:0") () ()
      (World.init Unit Unit)).2.2 (fun _ => rfl),
   (parse_helpers_caller_string truncating_lib true (PyArgs.str "ls:1:/dev/sdb:0") () ()
      (World.init Unit Unit)).1⟩

/-! ## The session descriptor -/

theorem step_fd {LS RES : Type} (lib : Lib LS RES) (w : World LS RES) (c : Call LS RES) :
    (step lib w c).2.__sanlockmod_fd = last_register w.__sanlockmod_fd [c] := by
  cases c with
  | register ret =>
    simp only [step, py_register, last_register, World.call, PyErr_SetString]
    split <;> rfl
  | add_lockspace args ls strdup_ok rv =>
    simp only [step, py_add_lockspace, __parse_lockspace, PyArg_ParseTuple, last_register,
      World.call, PyErr_SetString]
    cases args with
    | bad => simp
    | str s =>
      cases strdup_ok <;> by_cases hc : (lib.sanlock_str_to_lockspace s ls).rv = 0 <;>
        by_cases hr : rv = 0 <;> simp [hc, hr]
  | rem_lockspace args ls strdup_ok rv =>
    simp only [step, py_rem_lockspace, __parse_lockspace, PyArg_ParseTuple, last_register,
      World.call, PyErr_SetString]
    cases args with
    | bad => simp
    | str s =>
      cases strdup_ok <;> by_cases hc : (lib.sanlock_str_to_lockspace s ls).rv = 0 <;>
        by_cases hr : rv = 0 <;> simp [hc, hr]
  | acquire args res rv =>
    simp only [step, py_acquire, __parse_resource, PyArg_ParseTuple, last_register,
      World.call, PyErr_SetString]
    cases args with
    | bad => simp
    | str s =>
      by_cases hc : (lib.sanlock_str_to_res s res).rv = 0 <;>
        by_cases hr : rv = 0 <;> simp [hc, hr]
  | release args res rv =>
    simp only [step, py_release, __parse_resource, PyArg_ParseTuple, last_register,
      World.call, PyErr_SetString]
    cases args with
    | bad => simp
    | str s =>
      by_cases hc : (lib.sanlock_str_to_res s res).rv = 0 <;>
        by_cases hr : rv = 0 <;> simp [hc, hr]

theorem last_register_cons {LS RES : Type} (cur : Int) (c : Call LS RES)
    (cs : List (Call LS RES)) :
    last_register cur (c :: cs) = last_register (last_register cur [c]) cs := by
  cases c <;> simp [last_register]

theorem run_fd {LS RES : Type} (lib : Lib LS RES) (calls : List (Call LS RES)) :
    ∀ w : World LS RES,
      (run lib w calls).__sanlockmod_fd = last_register w.__sanlockmod_fd calls := by
  induction calls with
  | nil => intro w; rfl
  | cons c cs ih =>
    intro w
    have hrun : run lib w (c :: cs) = run lib (step lib w c).2 cs := rfl
    rw [hrun, ih, step_fd, ← last_register_cons]

theorem fds_follow_register_snoc {LS RES : Type} (e : LibCall LS RES × Int) :
    ∀ (t : List (LibCall LS RES × Int)) (cur : Int),
      fds_follow_register cur (t ++ [e]) ↔
        fds_follow_register cur t ∧ event_follows (registered_fd cur t) e := by
  intro t
  induction t with
  | nil =>
    intro cur
    obtain ⟨c, r⟩ := e
    cases c <;> simp [fds_follow_register, registered_fd, event_follows]
  | cons x xs ih =>
    intro cur
    obtain ⟨c, r⟩ := x
    cases c <;> simp [fds_follow_register, registered_fd, ih, and_assoc]

theorem registered_fd_snoc {LS RES : Type} (e : LibCall LS RES × Int) :
    ∀ (t : List (LibCall LS RES × Int)) (cur : Int),
      registered_fd cur (t ++ [e]) = registered_fd (registered_fd cur t) [e] := by
  intro t
  induction t with
  | nil => intro cur; rfl
  | cons x xs ih =>
    intro cur
    obtain ⟨c, r⟩ := x
    cases c <;> simp [registered_fd, ih]

theorem step_trace_inv {LS RES : Type} (lib : Lib LS RES) (cur : Int) (w : World LS RES)
    (c : Call LS RES) (h : trace_inv cur w) : trace_inv cur (step lib w c).2 := by
  obtain ⟨h1, h2⟩ := h
  unfold trace_inv
  cases c with
  | register ret =>
    simp only [step, py_register, World.call, PyErr_SetString]
    split <;>
      simp [fds_follow_register_snoc, registered_fd_snoc, h1, event_follows,
        registered_fd]
  | add_lockspace args ls strdup_ok rv =>
    simp only [step, py_add_lockspace, __parse_lockspace, PyArg_ParseTuple,
      World.call, PyErr_SetString]
    cases args with
    | bad => simp [h1, h2]
    | str s =>
      cases strdup_ok <;> by_cases hc : (lib.sanlock_str_to_lockspace s ls).rv = 0 <;>
        by_cases hr : rv = 0 <;>
        simp [hc, hr, fds_follow_register_snoc, registered_fd_snoc, h1, h2, event_follows,
          registered_fd]
  | rem_lockspace args ls strdup_ok rv =>
    simp only [step, py_rem_lockspace, __parse_lockspace, PyArg_ParseTuple,
      World.call, PyErr_SetString]
    cases args with
    | bad => simp [h1, h2]
    | str s =>
      cases strdup_ok <;> by_cases hc : (lib.sanlock_str_to_lockspace s ls).rv = 0 <;>
        by_cases hr : rv = 0 <;>
        simp [hc, hr, fds_follow_register_snoc, registered_fd_snoc, h1, h2, event_follows,
          registered_fd]
  | acquire args res rv =>
    simp only [step, py_acquire, __parse_resource, PyArg_ParseTuple,
      World.call, PyErr_SetString]
    cases args with
    | bad => simp [h1, h2]
    | str s =>
      by_cases hc : (lib.sanlock_str_to_res s res).rv = 0 <;>
        by_cases hr : rv = 0 <;>
        simp [hc, hr, fds_follow_register_snoc, registered_fd_snoc, h1, h2, event_follows,
          registered_fd]
  | release args res rv =>
    simp only [step, py_release, __parse_resource, PyArg_ParseTuple,
      World.call, PyErr_SetString]
    cases args with
    | bad => simp [h1, h2]
    | str s =>
      by_cases hc : (lib.sanlock_str_to_res s res).rv = 0 <;>
        by_cases hr : rv = 0 <;>
        simp [hc, hr, fds_follow_register_snoc, registered_fd_snoc, h1, h2, event_follows,
          registered_fd]

theorem run_trace_inv {LS RES : Type} (lib : Lib LS RES) (cur : Int)
    (calls : List (Call LS RES)) :
    ∀ w : World LS RES, trace_inv cur w → trace_inv cur (run lib w calls) := by
  induction calls with
  | nil => intro w h; exact h
  | cons c cs ih =>
    intro w h
    have hrun : run lib w (c :: cs) = run lib (step lib w c).2 cs := rfl
    rw [hrun]
    exact ih _ (step_trace_inv lib cur w c h)

/-- C9: the stored descriptor starts at -1; `register` stores whatever
`sanlock_register` returned, also when that is negative and `register` returns
`NULL`; `add_lockspace`, `rem_lockspace`, `acquire` and `release` leave it as it is
on every path; so after any sequence of calls it is the value of the most recent
`register`, or -1 when there was none, and every `sanlock_acquire` and
`sanlock_release` call made along the sequence was passed the value left by the
most recent `register` before it, or -1. -/
theorem session_descriptor_invariant {LS RES : Type} (lib : Lib LS RES)
    (calls : List (Call LS RES)) (w : World LS RES) (ret rv : Int) (strdup_ok : Bool)
    (args : PyArgs) (ls : LS) (res : RES) :
    (World.init LS RES).__sanlockmod_fd = -1 ∧
    (py_register ret w).2.__sanlockmod_fd = ret ∧
    ((py_register ret w).1 = PyRet.NULL ↔ ret < 0) ∧
    (py_add_lockspace lib strdup_ok rv args ls w).w.__sanlockmod_fd = w.__sanlockmod_fd ∧
    (py_rem_lockspace lib strdup_ok rv args ls w).w.__sanlockmod_fd = w.__sanlockmod_fd ∧
    (py_acquire lib rv args res w).w.__sanlockmod_fd = w.__sanlockmod_fd ∧
    (py_release lib rv args res w).w.__sanlockmod_fd = w.__sanlockmod_fd ∧
    (run lib (World.init LS RES) calls).__sanlockmod_fd = last_register (-1) calls ∧
    fds_follow_register (-1) (run lib (World.init LS RES) calls).trace := by
  refine ⟨rfl, ?_, ?_, ?_, ?_, ?_, ?_, ?_, ?_⟩
  · exact step_fd lib w (Call.register ret)
  · simp only [py_register, World.call, PyErr_SetString]
    by_cases h : ret < 0 <;> simp [h]
  · exact step_fd lib w (Call.add_lockspace args ls strdup_ok rv)
  · exact step_fd lib w (Call.rem_lockspace args ls strdup_ok rv)
  · exact step_fd lib w (Call.acquire args res rv)
  · exact step_fd lib w (Call.release args res rv)
  · exact run_fd lib calls (World.init LS RES)
  · exact (run_trace_inv lib (-1) calls (World.init LS RES) ⟨trivial, rfl⟩).1

end Sanlock
